import Mathlib

/-!
Shallow embedding of `ocr_server.py` (PaddleOCR multi-language dispatch
facade).  External collaborators — the OCR engine, PDF rasterization, the
filesystem listing and the wall clock — are modelled as an environment
(`Env`) of oracles; the script's own control flow, path manipulation,
response construction and persistence are translated function by function.
-/

/-- JSON-like values, the shape of the Python dicts the script builds.
Numbers are modelled as rationals. -/
inductive JValue where
  | jnull : JValue
  | jbool : Bool → JValue
  | jnum : ℚ → JValue
  | jstr : String → JValue
  | jarr : List JValue → JValue
  | jobj : List (String × JValue) → JValue

/-- Field lookup in a JSON object (first binding wins, like a Python dict
built in insertion order with distinct keys). -/
def JValue.lookup : JValue → String → Option JValue
  | .jobj fs, k => (fs.find? (fun p => p.1 == k)).map (·.2)
  | _, _ => none

/-- The keys of a JSON object, in insertion order. -/
def JValue.keys : JValue → List String
  | .jobj fs => fs.map (·.1)
  | _ => []

/-- Python truthiness of a JSON value (`if r["result"]["success"]`). -/
def pyTruthy : JValue → Bool
  | .jnull => false
  | .jbool b => b
  | .jnum q => q != 0
  | .jstr s => s != ""
  | .jarr l => !l.isEmpty
  | .jobj l => !l.isEmpty

/-- ASCII lowering of one character, the effect of `str.lower()` on the
ASCII paths the script handles. -/
def toLowerChar (c : Char) : Char :=
  if 'A' ≤ c ∧ c ≤ 'Z' then Char.ofNat (c.toNat + 32) else c

/-- `str.lower()` restricted to ASCII. -/
def strToLower (s : String) : String := ⟨s.data.map toLowerChar⟩

/-- `str.endswith(t)`. -/
def strEndsWith (s t : String) : Bool := t.data.isSuffixOf s.data

/-- `os.path.isabs` on POSIX: the path begins with `/`. -/
def isAbs (p : String) : Bool :=
  match p.data with
  | '/' :: _ => true
  | _ => false

/-- `Path(dir) / name` for a relative `name`. -/
def pathJoin (dir name : String) : String := dir ++ "/" ++ name

/-- `Path(p).name`: the part of the path after the last `/`. -/
def fileNameChars (l : List Char) : List Char :=
  (l.reverse.takeWhile (· ≠ '/')).reverse

/-- `pathlib` stem of a bare file name: the name with its last extension
removed, except when the last dot is the first or last character. -/
def stemChars (name : List Char) : List Char :=
  let r := name.reverse
  let b := r.takeWhile (· ≠ '.')
  if b.length = r.length then name
  else if b.isEmpty then name
  else if (r.drop (b.length + 1)).isEmpty then name
  else (r.drop (b.length + 1)).reverse

/-- `pathlib` suffix of a bare file name: the last extension with its dot,
or `""` when the last dot is absent, first or last. -/
def suffixChars (name : List Char) : List Char :=
  let r := name.reverse
  let b := r.takeWhile (· ≠ '.')
  if b.length = r.length then []
  else if b.isEmpty then []
  else if (r.drop (b.length + 1)).isEmpty then []
  else '.' :: b.reverse

/-- `Path(p).stem`. -/
def stem (p : String) : String := ⟨stemChars (fileNameChars p.data)⟩

/-- `Path(p).suffix`. -/
def pySuffix (p : String) : String := ⟨suffixChars (fileNameChars p.data)⟩

/-- Python `language or default`: `None` and `""` both fall back. -/
def pyOr (language : Option String) (dflt : String) : String :=
  match language with
  | none => dflt
  | some s => if s = "" then dflt else s

/-- Python `round(x, 3)` on the rational model of the elapsed time. -/
def round3 (q : ℚ) : ℚ := (round (q * 1000) : ℤ) / 1000

/-- `q` is representable with three decimal places. -/
def is3Decimal (q : ℚ) : Prop := ∃ n : ℤ, q = (n : ℚ) / 1000

/-- Python `int(x)` on a rational: truncation toward zero. -/
def pyInt (q : ℚ) : ℤ := if 0 ≤ q then ⌊q⌋ else ⌈q⌉

/-! ## The facade's fixed configuration (constructor, lines 28-51) -/

/-- `self.supported_languages = ["en", "es"]`. -/
def supportedLanguages : List String := ["en", "es"]

/-- `self.default_lang = "es"`. -/
def defaultLang : String := "es"

/-- `self.input_dir = /app/data/input`. -/
def inputDir : String := "/app/data/input"

/-- `self.output_dir = /app/data/output`. -/
def outputDir : String := "/app/data/output"

/-- The version string placed in success responses (line 89). -/
def versionString : String := "PaddleOCR 3.0.2 + PP-OCRv5"

/-- One page rasterized by `pdf2image.convert_from_path` (1-based page
number, rendering DPI). -/
structure RasterPage where
  pdf : String
  page : Nat
  dpi : Nat
deriving DecidableEq, Repr

/-- The pages `convert_from_path(path, dpi=300)` rasterizes for a document
of `n` pages: every page, in order. -/
def rasterize (path : String) (n : Nat) : List RasterPage :=
  (List.range n).map (fun i => ⟨path, i + 1, 300⟩)

/-- External collaborators, modelled as oracles.
* `clock n` — the value returned by the `n`-th call to `time.time()`.
* `pdfPages p` — `convert_from_path(p, dpi=300)`: the document's page
  count on success, or the raised exception's message.
* `engine lang path cls` — `self.ocr_instances[lang].ocr(path, cls=cls)`:
  raw OCR output, or the raised exception's message (covering missing
  files, unreadable images, model errors).
* `inputListing` — the file names `self.input_dir.iterdir()` yields, in
  directory-listing order.
* `healthImage` — constructing the synthetic `np.ones((50,100,3))` image.
* `healthCall lang` — `ocr.ocr(test_img, cls=False)` on that image. -/
structure Env where
  clock : Nat → ℚ
  pdfPages : String → Except String Nat
  engine : String → String → Bool → Except String JValue
  inputListing : List String
  healthImage : Except String Unit
  healthCall : String → Except String Unit

/-- `get_ocr_instance` (lines 53-58): the language whose pre-loaded engine
instance is returned — the requested one when supported, else the
default.  The handle itself is opaque, so the model returns its key. -/
def get_ocr_instance (language : Option String) : String :=
  let lang := pyOr language defaultLang
  if supportedLanguages.contains lang then lang else defaultLang

/-- Resolution of the input path (lines 67-68): relative paths are looked
up in the input staging directory. -/
def resolvePath (p : String) : String :=
  if isAbs p then p else pathJoin inputDir p

/-- The PDF pre-conversion step (lines 71-77).  On a `.pdf` path
(case-insensitive), `convert_from_path` rasterizes the whole document;
`pages[0]` raises `IndexError` when it is empty; otherwise the first page
is saved as `{stem}_page1.jpg` in the input directory and becomes the
effective input.  Returns the effective path, the pages rasterized, and
the image files written. -/
def pdfStep (env : Env) (p : String) :
    Except String (String × List RasterPage × List (String × RasterPage)) :=
  if strEndsWith (strToLower p) ".pdf" then
    match env.pdfPages p with
    | .error e => .error e
    | .ok n =>
      if n = 0 then .error "list index out of range"
      else
        let temp := pathJoin inputDir (stem p ++ "_page1.jpg")
        .ok (temp, rasterize p n, [(temp, ⟨p, 1, 300⟩)])
  else .ok (p, [], [])

/-- The error-branch response (lines 102-110): note the unrounded
`processing_time` and the absence of `version` and `angle_detection`. -/
def failResponse (msg lang : String) (ptime tstamp : ℚ) (path : String) : JValue :=
  .jobj [("success", .jbool false), ("error", .jstr msg),
         ("language", .jstr lang), ("processing_time", .jnum ptime),
         ("timestamp", .jnum tstamp), ("image_path", .jstr path)]

/-- The success-branch response fields (lines 83-92), in dict order. -/
def successFields (raw : JValue) (lang : String) (ptime tstamp : ℚ)
    (dr : Bool) (eff : String) : List (String × JValue) :=
  [("success", .jbool true), ("result", raw), ("language", .jstr lang),
   ("processing_time", .jnum ptime), ("timestamp", .jnum tstamp),
   ("version", .jstr versionString), ("angle_detection", .jbool dr),
   ("image_path", .jstr eff)]

/-- Everything one call of `MultiLanguageOCRServer.process_image` produces:
the returned dict, the pages rasterized, the image and JSON files written,
and the clock position after the call. -/
structure ProcOut where
  response : JValue
  rasterized : List RasterPage
  imagesSaved : List (String × RasterPage)
  jsonSaved : List (String × JValue)
  nextClock : Nat

/-- `MultiLanguageOCRServer.process_image` (lines 60-110), with `k` the
clock position on entry.  The try-block's failure points (PDF conversion,
`pages[0]`, the engine call) are caught and turned into a failure dict;
`json.dump` runs before `output_saved` is added to the returned dict. -/
def process_image (env : Env) (k : Nat) (image_path : String)
    (language : Option String) (detect_rotation : Bool)
    (save_output : Bool) : ProcOut :=
  let lang := pyOr language defaultLang
  let p := resolvePath image_path
  match pdfStep env p with
  | .error msg =>
      ⟨failResponse msg lang (env.clock (k+1) - env.clock k)
         (env.clock (k+2)) p, [], [], [], k+3⟩
  | .ok (eff, ras, saves) =>
      match env.engine (get_ocr_instance (some lang)) eff detect_rotation with
      | .error msg =>
          ⟨failResponse msg lang (env.clock (k+1) - env.clock k)
             (env.clock (k+2)) eff, ras, saves, [], k+3⟩
      | .ok raw =>
          let resp8 := successFields raw lang
            (round3 (env.clock (k+1) - env.clock k)) (env.clock (k+2))
            detect_rotation eff
          if save_output then
            let outFile :=
              pathJoin outputDir (stem eff ++ "_" ++ lang ++ "_result.json")
            ⟨.jobj (resp8 ++ [("output_saved", .jstr outFile)]), ras, saves,
             [(outFile, .jobj resp8)], k+3⟩
          else
            ⟨.jobj resp8, ras, saves, [], k+3⟩

/-! ## Batch processing (lines 112-151) -/

/-- The extension set batch mode accepts (line 117). -/
def imageExtensions : List String :=
  [".jpg", ".jpeg", ".png", ".bmp", ".tiff", ".tif", ".pdf"]

/-- `f.suffix.lower() in image_extensions` (line 118). -/
def hasImageExt (name : String) : Bool :=
  imageExtensions.contains (strToLower (pySuffix name))

/-- `r["result"]["success"]` under Python truthiness (lines 140-141). -/
def itemSuccess (item : JValue) : Bool :=
  pyTruthy (((item.lookup "result").getD .jnull).lookup "success" |>.getD .jnull)

/-- The accumulated outcome of the per-file loop (lines 129-135). -/
structure BatchItemsOut where
  items : List JValue
  rasterized : List RasterPage
  imagesSaved : List (String × RasterPage)
  jsonSaved : List (String × JValue)
  nextClock : Nat

/-- The per-file loop of `process_batch`: each file is processed with
`save_output=True` and the `{"file": ..., "result": ...}` records are
collected in listing order. -/
def runBatchItems (env : Env) (lang : String) :
    List String → Nat → BatchItemsOut
  | [], k => ⟨[], [], [], [], k⟩
  | f :: fs, k =>
    let out := process_image env k (pathJoin inputDir f) (some lang) true true
    let rest := runBatchItems env lang fs out.nextClock
    ⟨JValue.jobj [("file", .jstr f), ("result", out.response)] :: rest.items,
     out.rasterized ++ rest.rasterized,
     out.imagesSaved ++ rest.imagesSaved,
     out.jsonSaved ++ rest.jsonSaved,
     rest.nextClock⟩

/-- The failure object returned when no matching file is found
(lines 120-125). -/
def emptyBatchResponse : JValue :=
  .jobj [("success", .jbool false),
         ("error", .jstr "No se encontraron archivos en el directorio input"),
         ("input_dir", .jstr inputDir)]

/-- `MultiLanguageOCRServer.process_batch` (lines 112-151). -/
def process_batch (env : Env) (k : Nat) (language : Option String) : ProcOut :=
  let lang := pyOr language defaultLang
  let image_files := env.inputListing.filter hasImageExt
  if image_files.isEmpty then
    ⟨emptyBatchResponse, [], [], [], k⟩
  else
    let b := runBatchItems env lang image_files k
    let successful := b.items.countP (fun i => itemSuccess i)
    let failed := b.items.countP (fun i => ! itemSuccess i)
    let summary := JValue.jobj
      [("total_files", .jnum (image_files.length : ℚ)),
       ("successful", .jnum (successful : ℚ)),
       ("failed", .jnum (failed : ℚ)),
       ("language", .jstr lang),
       ("timestamp", .jnum (env.clock b.nextClock)),
       ("results", .jarr b.items)]
    let summary_file := pathJoin outputDir
      ("batch_summary_" ++ lang ++ "_" ++
        toString (pyInt (env.clock (b.nextClock + 1))) ++ ".json")
    ⟨summary, b.rasterized, b.imagesSaved,
     b.jsonSaved ++ [(summary_file, summary)], b.nextClock + 2⟩

/-! ## Health check (lines 153-181) -/

/-- The per-language probe loop (lines 166-174): each iteration samples
the clock, invokes the engine on the synthetic image, and on success
records an `ok` entry with a rounded response time.  The first raised
error aborts the loop. -/
def healthLoop (env : Env) :
    List String → Nat → Except String (List (String × JValue)) × Nat
  | [], k => (.ok [], k)
  | l :: ls, k =>
    match env.healthCall l with
    | .error e => (.error e, k + 1)
    | .ok _ =>
      let entry := (l, JValue.jobj
        [("status", .jstr "ok"),
         ("response_time", .jnum (round3 (env.clock (k+1) - env.clock k)))])
      match healthLoop env ls (k + 2) with
      | (.ok rest, k') => (.ok (entry :: rest), k')
      | (.error e, k') => (.error e, k')

/-- The dict returned for an unhealthy probe (lines 178-181). -/
def unhealthyResponse (e : String) : JValue :=
  .jobj [("status", .jstr "unhealthy"), ("error", .jstr e)]

/-- `MultiLanguageOCRServer.health_check` (lines 153-181): any exception
while building the synthetic image or probing a language yields the bare
unhealthy dict, discarding all per-language detail. -/
def health_check (env : Env) (k : Nat) : JValue × Nat :=
  match env.healthImage with
  | .error e => (unhealthyResponse e, k)
  | .ok _ =>
    match healthLoop env supportedLanguages k with
    | (.ok entries, k') =>
      (.jobj [("status", .jstr "healthy"),
              ("version", .jstr "PaddleOCR 3.0.2"),
              ("supported_languages", .jarr (supportedLanguages.map .jstr)),
              ("language_tests", .jobj entries)], k')
    | (.error e, k') => (unhealthyResponse e, k')

/-! ## Module-level wrappers and the command-line entry point
(lines 183-217) -/

/-- The module-level `process_image(image_path, language=None)` wrapper
(lines 185-186): it forwards only the path and language, so the facade's
defaults `detect_rotation=True, save_output=False` apply. -/
def process_image_wrapper (env : Env) (k : Nat) (image_path : String)
    (language : Option String) : ProcOut :=
  process_image env k image_path language true false

/-- What a `__main__` invocation does, observably. -/
inductive MainOutcome where
  | usage
  | printed : JValue → MainOutcome
  | crashed : String → MainOutcome

/-- The `__main__` block (lines 194-217).  The single-item branch calls
the module-level wrapper as `process_image(img_path, lang,
save_output=True)`; the wrapper's signature has no `save_output`
parameter, so Python raises `TypeError` at the call site, before any
processing, printing or persisting happens. -/
def mainEntry (env : Env) (argv : List String) : MainOutcome :=
  match argv with
  | [] => .usage
  | a :: rest =>
    if a = "--health" then .printed (health_check env 0).1
    else if a = "--batch" then .printed (process_batch env 0 rest.head?).response
    else .crashed "TypeError: process_image() got an unexpected keyword argument: save_output"

/-! ## Concrete environments used to instantiate the theorems -/

/-- Environment with an integer-valued clock, a three-page PDF at
`/tmp/doc.pdf`, an engine that reads `a.png` and the converted
`doc_page1.jpg`, and a mixed input directory. -/
def envT : Env where
  clock := fun n => (n : ℚ)
  pdfPages := fun p => if p = "/tmp/doc.pdf" then .ok 3 else .error "pdf missing"
  engine := fun _ path _ =>
    if path = "/app/data/input/a.png" ∨ path = "/app/data/input/doc_page1.jpg"
    then .ok (.jstr "TEXT") else .error "file not found"
  inputListing := ["a.png", "bad.pdf", "notes.txt"]
  healthImage := .ok ()
  healthCall := fun _ => .ok ()

/-- Environment whose clock advances by thirds of a second and whose
engine always raises. -/
def envC5 : Env where
  clock := fun n => (n : ℚ) / 3
  pdfPages := fun _ => .error "pdf missing"
  engine := fun _ _ _ => .error "engine failure"
  inputListing := []
  healthImage := .ok ()
  healthCall := fun _ => .ok ()

/-- Environment whose input directory holds no file with a matching
extension. -/
def envC7 : Env where
  clock := fun n => (n : ℚ)
  pdfPages := fun _ => .error "pdf missing"
  engine := fun _ _ _ => .error "file not found"
  inputListing := ["notes.txt"]
  healthImage := .ok ()
  healthCall := fun _ => .ok ()

/-- Whether the code's run on one batch file succeeds: the PDF
pre-conversion step and then the engine call on the effective input (with
rotation detection on, as the batch loop requests) both complete. -/
def fileSucceeds (env : Env) (lang : String) (f : String) : Bool :=
  match pdfStep env (resolvePath (pathJoin inputDir f)) with
  | .error _ => false
  | .ok (eff, _, _) =>
    match env.engine (get_ocr_instance (some lang)) eff true with
    | .ok _ => true
    | .error _ => false

/-! ## General lemmas -/

theorem countP_add_countP_not (p : α → Bool) (l : List α) :
    l.countP p + l.countP (fun x => ! p x) = l.length := by
  induction l with
  | nil => rfl
  | cons a l ih =>
    by_cases h : p a <;> simp [List.countP_cons, h, ← ih] <;> omega

theorem round3_is3Decimal (q : ℚ) : is3Decimal (round3 q) :=
  ⟨round (q * 1000), rfl⟩

theorem not_is3Decimal_third : ¬ is3Decimal (1/3 : ℚ) := by
  rintro ⟨n, h⟩
  rw [div_eq_div_iff (by norm_num) (by norm_num)] at h
  norm_cast at h
  omega

/-- The resolved language the batch loop hands to `process_image` is a
fixed point of the `language or default` idiom. -/
theorem pyOr_pyOr (l : Option String) :
    pyOr (some (pyOr l defaultLang)) defaultLang = pyOr l defaultLang := by
  cases l with
  | none => rfl
  | some s =>
    by_cases hs : s = "" <;> simp [pyOr, hs, defaultLang]

/-- `process_image` always consumes exactly three clock samples. -/
theorem process_image_nextClock (env : Env) (k : Nat) (p : String)
    (language : Option String) (dr so : Bool) :
    (process_image env k p language dr so).nextClock = k + 3 := by
  cases hp : pdfStep env (resolvePath p) with
  | error m => simp only [process_image, hp]
  | ok t =>
    obtain ⟨eff, ras, saves⟩ := t
    cases he : env.engine (get_ocr_instance (some (pyOr language defaultLang))) eff dr with
    | error m => simp only [process_image, hp, he]
    | ok raw => cases so <;> simp only [process_image, hp, he] <;> rfl

/-! ## Claim C9 -/

/-- C9: for every input path, language and flag combination, single-item
processing is a total function whose result either reports success, or
reports `success=false` together with the error string of the failure
that was caught — no exception escapes the operation. -/
theorem process_image_never_throws (env : Env) (k : Nat) (p : String)
    (language : Option String) (dr so : Bool) :
    ((process_image env k p language dr so).response.lookup "success"
        = some (.jbool true)) ∨
    ∃ msg,
      (process_image env k p language dr so).response.lookup "success"
          = some (.jbool false) ∧
      (process_image env k p language dr so).response.lookup "error"
          = some (.jstr msg) := by
  cases hp : pdfStep env (resolvePath p) with
  | error m =>
    refine Or.inr ⟨m, ?_, ?_⟩ <;> simp only [process_image, hp] <;> rfl
  | ok t =>
    obtain ⟨eff, ras, saves⟩ := t
    cases he : env.engine (get_ocr_instance (some (pyOr language defaultLang))) eff dr with
    | error m =>
      refine Or.inr ⟨m, ?_, ?_⟩ <;> simp only [process_image, hp, he] <;> rfl
    | ok raw =>
      refine Or.inl ?_
      cases so <;> simp only [process_image, hp, he] <;> rfl

/-! ## Claim C2 -/

/-- C2 counterexample: requesting the unsupported language "fr" for a
non-existent file produces a failed result whose `language` field is
"fr" itself — not the resolved language "es" that the supported-set
fallback would give. -/
theorem language_field_not_resolved_counterexample :
    ((process_image envT 0 "missing.png" (some "fr") true false).response.lookup
        "language" = some (.jstr "fr")) ∧
    supportedLanguages.contains "fr" = false ∧
    defaultLang = "es" ∧
    (process_image envT 0 "missing.png" (some "fr") true false).response.lookup
        "language" ≠ some (.jstr "es") ∧
    (process_image envT 0 "missing.png" (some "fr") true false).response.lookup
        "success" = some (.jbool false) := by
  refine ⟨rfl, by decide, rfl, ?_, rfl⟩
  have hv : (process_image envT 0 "missing.png" (some "fr") true false).response.lookup
      "language" = some (.jstr "fr") := rfl
  intro h
  rw [hv] at h
  simp only [Option.some.injEq, JValue.jstr.injEq] at h
  exact absurd h (by decide)

/-- C2 (amended): the `language` field of every returned result — success
or failure — is the requested code when one is given (even an unsupported
one), and the configured default when absent; the supported-set fallback
affects only which engine instance is invoked.  When the engine call
raises (e.g. for a non-existent file), the result carries `success=false`
and the raised error string. -/
theorem process_image_language_field (env : Env) (k : Nat) (p : String)
    (language : Option String) (dr so : Bool) :
    ((process_image env k p language dr so).response.lookup "language"
        = some (.jstr (pyOr language defaultLang))) ∧
    (∀ eff ras saves msg,
      pdfStep env (resolvePath p) = .ok (eff, ras, saves) →
      env.engine (get_ocr_instance (some (pyOr language defaultLang))) eff dr
        = .error msg →
      (process_image env k p language dr so).response.lookup "success"
          = some (.jbool false) ∧
      (process_image env k p language dr so).response.lookup "error"
          = some (.jstr msg)) := by
  constructor
  · cases hp : pdfStep env (resolvePath p) with
    | error m => simp only [process_image, hp]; rfl
    | ok t =>
      obtain ⟨eff, ras, saves⟩ := t
      cases he : env.engine (get_ocr_instance (some (pyOr language defaultLang))) eff dr with
      | error m => simp only [process_image, hp, he]; rfl
      | ok raw => cases so <;> simp only [process_image, hp, he] <;> rfl
  · intro eff ras saves msg hp he
    simp only [process_image, hp, he]
    exact ⟨rfl, rfl⟩

/-- Witness for the C2 theorem at a concrete input: a missing file with
requested language "fr" yields a failed result with the engine's error. -/
theorem process_image_language_field_witness :
    (process_image envT 0 "missing.png" (some "fr") true false).response.lookup
        "success" = some (.jbool false) ∧
    (process_image envT 0 "missing.png" (some "fr") true false).response.lookup
        "error" = some (.jstr "file not found") :=
  (process_image_language_field envT 0 "missing.png" (some "fr") true false).2
    "/app/data/input/missing.png" [] [] "file not found" rfl rfl

/-! ## Claim C1 -/

/-- C1: invoking the entry point as `<program> <path> [language]` does not
process anything — the `__main__` block calls the two-parameter
module-level wrapper with the unexpected keyword argument `save_output`,
so Python raises `TypeError` before any processing, persisting or
printing of a result can happen. -/
theorem cli_single_item_mode_crashes (env : Env) (a : String)
    (rest : List String) (h1 : a ≠ "--health") (h2 : a ≠ "--batch") :
    mainEntry env (a :: rest)
      = .crashed "TypeError: process_image() got an unexpected keyword argument: save_output" := by
  simp only [mainEntry]
  rw [if_neg h1, if_neg h2]

/-- Witness: the concrete invocation `ocr_server.py factura.png en`
crashes with the `TypeError` instead of printing a result. -/
theorem cli_single_item_mode_crashes_witness :
    mainEntry envT ["factura.png", "en"]
      = .crashed "TypeError: process_image() got an unexpected keyword argument: save_output" :=
  cli_single_item_mode_crashes envT "factura.png" ["en"] (by decide) (by decide)

/-! ## Claim C5 -/

/-- C5 counterexample: when the engine call raises after a third of a
second, the failed result's `processing_time` is the raw elapsed value
`1/3` — not a 3-decimal rounding — and the failed result carries neither
`version` nor `angle_detection`. -/
theorem failure_fields_counterexample :
    ((process_image envC5 0 "x.png" none true false).response.lookup
        "processing_time" = some (.jnum (1/3))) ∧
    ¬ is3Decimal (1/3) ∧
    (process_image envC5 0 "x.png" none true false).response.lookup
        "version" = none ∧
    (process_image envC5 0 "x.png" none true false).response.lookup
        "angle_detection" = none := by
  have hp : pdfStep envC5 (resolvePath "x.png") =
      .ok ("/app/data/input/x.png", [], []) := rfl
  have he : envC5.engine (get_ocr_instance (some (pyOr none defaultLang)))
      "/app/data/input/x.png" true = .error "engine failure" := rfl
  have hc : envC5.clock (0+1) - envC5.clock 0 = 1/3 := by norm_num [envC5]
  refine ⟨?_, not_is3Decimal_third, ?_, ?_⟩ <;>
    simp only [process_image, hp, he, hc] <;> rfl

/-- C5 (amended): only successful results carry `processing_time` rounded
to three decimals together with `version` and `angle_detection`; failed
results carry the raw unrounded elapsed time and omit both schema
fields. -/
theorem processing_time_fields (env : Env) (k : Nat) (p : String)
    (language : Option String) (dr so : Bool) :
    (∀ eff ras saves raw,
      pdfStep env (resolvePath p) = .ok (eff, ras, saves) →
      env.engine (get_ocr_instance (some (pyOr language defaultLang))) eff dr
        = .ok raw →
      (process_image env k p language dr so).response.lookup "processing_time"
          = some (.jnum (round3 (env.clock (k+1) - env.clock k))) ∧
      is3Decimal (round3 (env.clock (k+1) - env.clock k)) ∧
      (process_image env k p language dr so).response.lookup "version"
          = some (.jstr versionString) ∧
      (process_image env k p language dr so).response.lookup "angle_detection"
          = some (.jbool dr)) ∧
    (∀ msg, pdfStep env (resolvePath p) = .error msg →
      (process_image env k p language dr so).response.lookup "processing_time"
          = some (.jnum (env.clock (k+1) - env.clock k)) ∧
      (process_image env k p language dr so).response.lookup "version" = none ∧
      (process_image env k p language dr so).response.lookup "angle_detection"
          = none) ∧
    (∀ eff ras saves msg,
      pdfStep env (resolvePath p) = .ok (eff, ras, saves) →
      env.engine (get_ocr_instance (some (pyOr language defaultLang))) eff dr
        = .error msg →
      (process_image env k p language dr so).response.lookup "processing_time"
          = some (.jnum (env.clock (k+1) - env.clock k)) ∧
      (process_image env k p language dr so).response.lookup "version" = none ∧
      (process_image env k p language dr so).response.lookup "angle_detection"
          = none) := by
  refine ⟨?_, ?_, ?_⟩
  · intro eff ras saves raw hp he
    refine ⟨?_, round3_is3Decimal _, ?_, ?_⟩ <;>
      (cases so <;> simp only [process_image, hp, he] <;> rfl)
  · intro msg hp
    refine ⟨?_, ?_, ?_⟩ <;> simp only [process_image, hp] <;> rfl
  · intro eff ras saves msg hp he
    refine ⟨?_, ?_, ?_⟩ <;> simp only [process_image, hp, he] <;> rfl

/-- Witness for the C5 theorem: a successful concrete run carries the
rounded time and both schema fields. -/
theorem processing_time_fields_witness :
    (process_image envT 0 "a.png" none true false).response.lookup
        "processing_time"
        = some (.jnum (round3 (envT.clock (0+1) - envT.clock 0))) ∧
    is3Decimal (round3 (envT.clock (0+1) - envT.clock 0)) ∧
    (process_image envT 0 "a.png" none true false).response.lookup "version"
        = some (.jstr versionString) ∧
    (process_image envT 0 "a.png" none true false).response.lookup
        "angle_detection" = some (.jbool true) :=
  (processing_time_fields envT 0 "a.png" none true false).1
    "/app/data/input/a.png" [] [] (.jstr "TEXT") rfl rfl

/-! ## Claim C4 -/

/-- C4 counterexample: on a successful persisted run, the returned result
has the field `output_saved` but the persisted artifact does not — the
artifact's fields are not exactly the returned result's fields, because
`output_saved` is added to the dict only after `json.dump`. -/
theorem persisted_artifact_misses_output_saved :
    ((process_image envT 0 "a.png" none true true).response).keys
      = ["success", "result", "language", "processing_time", "timestamp",
         "version", "angle_detection", "image_path", "output_saved"] ∧
    ((process_image envT 0 "a.png" none true true).jsonSaved.map
        (fun e => (e.1, e.2.keys)))
      = [("/app/data/output/a_es_result.json",
          ["success", "result", "language", "processing_time", "timestamp",
           "version", "angle_detection", "image_path"])] ∧
    ((process_image envT 0 "a.png" none true true).response).lookup
        "output_saved" = some (.jstr "/app/data/output/a_es_result.json") :=
  ⟨rfl, rfl, rfl⟩

/-- C4 (amended): on every successful persisted run the artifact written
to disk is exactly the returned result minus the `output_saved` field:
every artifact field round-trips into the in-memory result unchanged
(serialization itself is modelled as faithful), and the returned result
additionally records the artifact path under `output_saved`. -/
theorem persisted_artifact_roundtrip (env : Env) (k : Nat) (p : String)
    (language : Option String) (dr : Bool) (eff : String)
    (ras : List RasterPage) (saves : List (String × RasterPage)) (raw : JValue)
    (hp : pdfStep env (resolvePath p) = .ok (eff, ras, saves))
    (he : env.engine (get_ocr_instance (some (pyOr language defaultLang))) eff dr
      = .ok raw) :
    (process_image env k p language dr true).jsonSaved
      = [(pathJoin outputDir
            (stem eff ++ "_" ++ pyOr language defaultLang ++ "_result.json"),
          .jobj (successFields raw (pyOr language defaultLang)
            (round3 (env.clock (k+1) - env.clock k)) (env.clock (k+2)) dr eff))] ∧
    (process_image env k p language dr true).response
      = .jobj (successFields raw (pyOr language defaultLang)
            (round3 (env.clock (k+1) - env.clock k)) (env.clock (k+2)) dr eff
          ++ [("output_saved", .jstr (pathJoin outputDir
                (stem eff ++ "_" ++ pyOr language defaultLang ++ "_result.json")))]) := by
  constructor <;> simp only [process_image, hp, he] <;> rfl

/-- Witness for the C4 theorem at a concrete successful persisted run. -/
theorem persisted_artifact_roundtrip_witness :
    (process_image envT 0 "a.png" none true true).jsonSaved
      = [(pathJoin outputDir
            (stem "/app/data/input/a.png" ++ "_" ++ pyOr none defaultLang
              ++ "_result.json"),
          .jobj (successFields (.jstr "TEXT") (pyOr none defaultLang)
            (round3 (envT.clock (0+1) - envT.clock 0)) (envT.clock (0+2)) true
            "/app/data/input/a.png"))] ∧
    (process_image envT 0 "a.png" none true true).response
      = .jobj (successFields (.jstr "TEXT") (pyOr none defaultLang)
            (round3 (envT.clock (0+1) - envT.clock 0)) (envT.clock (0+2)) true
            "/app/data/input/a.png"
          ++ [("output_saved", .jstr (pathJoin outputDir
                (stem "/app/data/input/a.png" ++ "_" ++ pyOr none defaultLang
                  ++ "_result.json")))]) :=
  persisted_artifact_roundtrip envT 0 "a.png" none true
    "/app/data/input/a.png" [] [] (.jstr "TEXT") rfl rfl

/-! ## Claim C3 -/

/-- C3 counterexample: for a three-page PDF at an absolute path outside
the staging directory, conversion rasterizes pages 2 and 3 as well (all
three pages appear in the rasterization trace), and the JPEG is written
inside the input staging directory, not alongside the input in `/tmp`. -/
theorem pdf_rasterizes_all_pages_counterexample :
    ((⟨"/tmp/doc.pdf", 2, 300⟩ : RasterPage)
        ∈ (process_image envT 0 "/tmp/doc.pdf" none true false).rasterized) ∧
    (process_image envT 0 "/tmp/doc.pdf" none true false).rasterized
      = [⟨"/tmp/doc.pdf", 1, 300⟩, ⟨"/tmp/doc.pdf", 2, 300⟩,
         ⟨"/tmp/doc.pdf", 3, 300⟩] ∧
    (process_image envT 0 "/tmp/doc.pdf" none true false).imagesSaved
      = [("/app/data/input/doc_page1.jpg", ⟨"/tmp/doc.pdf", 1, 300⟩)] ∧
    "/app/data/input/doc_page1.jpg" ≠ "/tmp/doc_page1.jpg" := by
  refine ⟨?_, rfl, rfl, by decide⟩
  rw [show (process_image envT 0 "/tmp/doc.pdf" none true false).rasterized
      = [⟨"/tmp/doc.pdf", 1, 300⟩, ⟨"/tmp/doc.pdf", 2, 300⟩,
         ⟨"/tmp/doc.pdf", 3, 300⟩] from rfl]
  simp

/-- C3 (amended): for every `.pdf` input (case-insensitive) whose
conversion succeeds with a non-empty page list, conversion rasterizes
every page of the document at 300 DPI; only the first page is saved, as a
JPEG named `{stem}_page1.jpg` inside the input staging directory, and
that JPEG is the effective input from then on. -/
theorem pdf_step_behaviour (env : Env) (k : Nat) (p : String)
    (language : Option String) (dr so : Bool) (n : Nat)
    (hpdf : strEndsWith (strToLower (resolvePath p)) ".pdf" = true)
    (hn : env.pdfPages (resolvePath p) = .ok n) (hn0 : n ≠ 0) :
    (process_image env k p language dr so).rasterized
      = rasterize (resolvePath p) n ∧
    (process_image env k p language dr so).imagesSaved
      = [(pathJoin inputDir (stem (resolvePath p) ++ "_page1.jpg"),
          ⟨resolvePath p, 1, 300⟩)] ∧
    (process_image env k p language dr so).response.lookup "image_path"
      = some (.jstr (pathJoin inputDir (stem (resolvePath p) ++ "_page1.jpg"))) := by
  have hp : pdfStep env (resolvePath p)
      = .ok (pathJoin inputDir (stem (resolvePath p) ++ "_page1.jpg"),
             rasterize (resolvePath p) n,
             [(pathJoin inputDir (stem (resolvePath p) ++ "_page1.jpg"),
               ⟨resolvePath p, 1, 300⟩)]) := by
    simp [pdfStep, hpdf, hn, hn0]
  cases he : env.engine (get_ocr_instance (some (pyOr language defaultLang)))
      (pathJoin inputDir (stem (resolvePath p) ++ "_page1.jpg")) dr with
  | error m => refine ⟨?_, ?_, ?_⟩ <;> simp only [process_image, hp, he] <;> rfl
  | ok raw =>
    cases so <;> (refine ⟨?_, ?_, ?_⟩ <;> simp only [process_image, hp, he] <;> rfl)

/-- Witness for the C3 theorem at the concrete three-page PDF. -/
theorem pdf_step_behaviour_witness :
    (process_image envT 0 "/tmp/doc.pdf" none true false).rasterized
      = rasterize (resolvePath "/tmp/doc.pdf") 3 ∧
    (process_image envT 0 "/tmp/doc.pdf" none true false).imagesSaved
      = [(pathJoin inputDir (stem (resolvePath "/tmp/doc.pdf") ++ "_page1.jpg"),
          ⟨resolvePath "/tmp/doc.pdf", 1, 300⟩)] ∧
    (process_image envT 0 "/tmp/doc.pdf" none true false).response.lookup
        "image_path"
      = some (.jstr (pathJoin inputDir
          (stem (resolvePath "/tmp/doc.pdf") ++ "_page1.jpg"))) :=
  pdf_step_behaviour envT 0 "/tmp/doc.pdf" none true false 3 rfl rfl (by decide)

/-! ## Claim C7 -/

/-- C7: when the input staging directory holds no entry with a matching
extension, `process_batch` returns the failure object with
`success=false` that names the directory, writes no artifact of any kind,
and — being a total function into result records — raises nothing. -/
theorem process_batch_empty_dir (env : Env) (k : Nat) (language : Option String)
    (h : env.inputListing.filter hasImageExt = []) :
    (process_batch env k language).response = emptyBatchResponse ∧
    emptyBatchResponse.lookup "success" = some (.jbool false) ∧
    emptyBatchResponse.lookup "error"
      = some (.jstr "No se encontraron archivos en el directorio input") ∧
    emptyBatchResponse.lookup "input_dir" = some (.jstr inputDir) ∧
    (process_batch env k language).jsonSaved = [] ∧
    (process_batch env k language).imagesSaved = [] := by
  refine ⟨?_, rfl, rfl, rfl, ?_, ?_⟩ <;> simp [process_batch, h]

/-- Witness for the C7 theorem: a directory containing only
`notes.txt` matches nothing and yields the failure object. -/
theorem process_batch_empty_dir_witness :
    (process_batch envC7 0 none).response = emptyBatchResponse ∧
    emptyBatchResponse.lookup "success" = some (.jbool false) ∧
    emptyBatchResponse.lookup "error"
      = some (.jstr "No se encontraron archivos en el directorio input") ∧
    emptyBatchResponse.lookup "input_dir" = some (.jstr inputDir) ∧
    (process_batch envC7 0 none).jsonSaved = [] ∧
    (process_batch envC7 0 none).imagesSaved = [] :=
  process_batch_empty_dir envC7 0 none rfl

/-! ## Claim C8 -/

/-- C8: the health probe returns "healthy" with one `ok` entry (carrying
its response time) per supported language exactly when the synthetic
image is constructed and every per-language engine call completes; any
raised error yields the bare "unhealthy" record with the triggering error
and no per-language detail at all. -/
theorem health_check_spec (env : Env) (k : Nat) :
    (env.healthImage = .ok () ∧ env.healthCall "en" = .ok () ∧
        env.healthCall "es" = .ok () →
      (health_check env k).1 = .jobj
        [("status", .jstr "healthy"),
         ("version", .jstr "PaddleOCR 3.0.2"),
         ("supported_languages", .jarr [.jstr "en", .jstr "es"]),
         ("language_tests", .jobj
           [("en", .jobj [("status", .jstr "ok"),
              ("response_time",
                .jnum (round3 (env.clock (k+1) - env.clock k)))]),
            ("es", .jobj [("status", .jstr "ok"),
              ("response_time",
                .jnum (round3 (env.clock (k+3) - env.clock (k+2))))])])]) ∧
    (∀ e, env.healthImage = .error e →
      (health_check env k).1 = unhealthyResponse e ∧
      (health_check env k).1.lookup "language_tests" = none) ∧
    (∀ e, env.healthImage = .ok () → env.healthCall "en" = .error e →
      (health_check env k).1 = unhealthyResponse e ∧
      (health_check env k).1.lookup "language_tests" = none) ∧
    (∀ e, env.healthImage = .ok () → env.healthCall "en" = .ok () →
        env.healthCall "es" = .error e →
      (health_check env k).1 = unhealthyResponse e ∧
      (health_check env k).1.lookup "language_tests" = none) ∧
    (((health_check env k).1.lookup "status" = some (.jstr "healthy")) ↔
      env.healthImage = .ok () ∧
        ∀ l ∈ supportedLanguages, env.healthCall l = .ok ()) := by
  refine ⟨?_, ?_, ?_, ?_, ?_⟩
  · rintro ⟨h1, h2, h3⟩
    simp [health_check, h1, supportedLanguages, healthLoop, h2, h3]
  · intro e he
    have hv : (health_check env k).1 = unhealthyResponse e := by
      simp only [health_check, he]
    exact ⟨hv, by rw [hv]; rfl⟩
  · intro e h1 h2
    have hv : (health_check env k).1 = unhealthyResponse e := by
      simp only [health_check, h1, supportedLanguages, healthLoop, h2]
    exact ⟨hv, by rw [hv]; rfl⟩
  · intro e h1 h2 h3
    have hv : (health_check env k).1 = unhealthyResponse e := by
      simp only [health_check, h1, supportedLanguages, healthLoop, h2, h3]
    exact ⟨hv, by rw [hv]; rfl⟩
  · cases hI : env.healthImage with
    | error e =>
      have hv : (health_check env k).1 = unhealthyResponse e := by
        simp only [health_check, hI]
      rw [hv]
      rw [show (unhealthyResponse e).lookup "status"
          = some (.jstr "unhealthy") from rfl]
      constructor
      · intro h
        simp only [Option.some.injEq, JValue.jstr.injEq] at h
        exact absurd h (by decide)
      · rintro ⟨h1, -⟩
        exact Except.noConfusion h1
    | ok u =>
      cases u
      cases hE : env.healthCall "en" with
      | error e =>
        have hv : (health_check env k).1 = unhealthyResponse e := by
          simp only [health_check, hI, supportedLanguages, healthLoop, hE]
        rw [hv]
        rw [show (unhealthyResponse e).lookup "status"
            = some (.jstr "unhealthy") from rfl]
        constructor
        · intro h
          simp only [Option.some.injEq, JValue.jstr.injEq] at h
          exact absurd h (by decide)
        · rintro ⟨-, h2⟩
          exact Except.noConfusion
            ((h2 "en" (by simp [supportedLanguages])).symm.trans hE)
      | ok u2 =>
        cases u2
        cases hS : env.healthCall "es" with
        | error e =>
          have hv : (health_check env k).1 = unhealthyResponse e := by
            simp only [health_check, hI, supportedLanguages, healthLoop, hE, hS]
          rw [hv]
          rw [show (unhealthyResponse e).lookup "status"
              = some (.jstr "unhealthy") from rfl]
          constructor
          · intro h
            simp only [Option.some.injEq, JValue.jstr.injEq] at h
            exact absurd h (by decide)
          · rintro ⟨-, h2⟩
            exact Except.noConfusion
              ((h2 "es" (by simp [supportedLanguages])).symm.trans hS)
        | ok u3 =>
          cases u3
          have hv : (health_check env k).1.lookup "status"
              = some (.jstr "healthy") := by
            simp [health_check, hI, supportedLanguages, healthLoop, hE, hS,
              JValue.lookup, List.find?]
          rw [hv]
          refine iff_of_true rfl ⟨rfl, ?_⟩
          intro l hl
          simp only [supportedLanguages, List.mem_cons, List.mem_singleton,
            List.not_mem_nil] at hl
          rcases hl with rfl | rfl | h
          · exact hE
          · exact hS
          · exact absurd h (by simp)

/-- Witness for the C8 theorem: in a concrete all-healthy environment the
probe returns the full healthy record with both per-language entries. -/
theorem health_check_spec_witness :
    (health_check envT 0).1 = .jobj
      [("status", .jstr "healthy"),
       ("version", .jstr "PaddleOCR 3.0.2"),
       ("supported_languages", .jarr [.jstr "en", .jstr "es"]),
       ("language_tests", .jobj
         [("en", .jobj [("status", .jstr "ok"),
            ("response_time",
              .jnum (round3 (envT.clock (0+1) - envT.clock 0)))]),
          ("es", .jobj [("status", .jstr "ok"),
            ("response_time",
              .jnum (round3 (envT.clock (0+3) - envT.clock (0+2))))])])] :=
  (health_check_spec envT 0).1 ⟨rfl, rfl, rfl⟩

/-! ## Claim C6 -/

/-- The success flag recorded for one batch item agrees with whether the
code's processing of that file succeeded. -/
theorem batch_item_success (env : Env) (k : Nat) (lang f : String)
    (hl : pyOr (some lang) defaultLang = lang) :
    itemSuccess (JValue.jobj [("file", .jstr f),
      ("result",
        (process_image env k (pathJoin inputDir f) (some lang) true true).response)])
      = fileSucceeds env lang f := by
  cases hp : pdfStep env (resolvePath (pathJoin inputDir f)) with
  | error m =>
    simp only [process_image, fileSucceeds, hl, hp]
    rfl
  | ok t =>
    obtain ⟨eff, ras, saves⟩ := t
    cases he : env.engine (get_ocr_instance (some lang)) eff true with
    | error m =>
      simp only [process_image, fileSucceeds, hl, hp, he]
      rfl
    | ok raw =>
      simp only [process_image, fileSucceeds, hl, hp, he]
      rfl

/-- Shape of the per-file loop's outcome: one item per file, in listing
order, whose recorded success flags count exactly the files the code
succeeds on. -/
theorem runBatchItems_spec (env : Env) (lang : String)
    (hl : pyOr (some lang) defaultLang = lang) :
    ∀ (fs : List String) (k : Nat),
      (runBatchItems env lang fs k).items.length = fs.length ∧
      (runBatchItems env lang fs k).items.map (fun i => i.lookup "file")
        = fs.map (fun f => some (.jstr f)) ∧
      (runBatchItems env lang fs k).items.countP (fun i => itemSuccess i)
        = fs.countP (fun f => fileSucceeds env lang f) ∧
      (runBatchItems env lang fs k).items.countP (fun i => ! itemSuccess i)
        = fs.countP (fun f => ! fileSucceeds env lang f)
  | [], k => ⟨rfl, rfl, rfl, rfl⟩
  | f :: fs, k => by
    obtain ⟨ih1, ih2, ih3, ih4⟩ :=
      runBatchItems_spec env lang hl fs
        (process_image env k (pathJoin inputDir f) (some lang) true true).nextClock
    have hitem := batch_item_success env k lang f hl
    refine ⟨?_, ?_, ?_, ?_⟩ <;>
      simp only [runBatchItems, List.length_cons, List.map_cons,
        List.countP_cons, ih1, ih2, ih3, ih4, hitem] <;>
      rfl

/-- C6: over a non-empty matching input set, the batch summary reports
`total_files` equal to the number of matching files, `successful` equal to
the number of files the code processes successfully, `failed` equal to the
number it fails on (so `successful + failed = total_files`), collects the
(filename, result) pairs in directory-listing order, persists exactly one
summary artifact named `batch_summary_{lang}_{unixTimestamp}.json` as the
one write after the per-item artifacts, and no item's failure aborts the
batch: there is one item per file regardless of outcomes. -/
theorem process_batch_aggregation (env : Env) (k : Nat) (language : Option String)
    (hne : env.inputListing.filter hasImageExt ≠ []) :
    (process_batch env k language).response = JValue.jobj
      [("total_files", .jnum (((env.inputListing.filter hasImageExt).length : ℚ))),
       ("successful", .jnum (((env.inputListing.filter hasImageExt).countP
           (fun f => fileSucceeds env (pyOr language defaultLang) f) : ℚ))),
       ("failed", .jnum (((env.inputListing.filter hasImageExt).countP
           (fun f => ! fileSucceeds env (pyOr language defaultLang) f) : ℚ))),
       ("language", .jstr (pyOr language defaultLang)),
       ("timestamp", .jnum (env.clock (runBatchItems env (pyOr language defaultLang)
           (env.inputListing.filter hasImageExt) k).nextClock)),
       ("results", .jarr (runBatchItems env (pyOr language defaultLang)
           (env.inputListing.filter hasImageExt) k).items)] ∧
    (runBatchItems env (pyOr language defaultLang)
        (env.inputListing.filter hasImageExt) k).items.map (fun i => i.lookup "file")
      = (env.inputListing.filter hasImageExt).map (fun f => some (.jstr f)) ∧
    (runBatchItems env (pyOr language defaultLang)
        (env.inputListing.filter hasImageExt) k).items.length
      = (env.inputListing.filter hasImageExt).length ∧
    (env.inputListing.filter hasImageExt).countP
        (fun f => fileSucceeds env (pyOr language defaultLang) f)
      + (env.inputListing.filter hasImageExt).countP
          (fun f => ! fileSucceeds env (pyOr language defaultLang) f)
      = (env.inputListing.filter hasImageExt).length ∧
    (process_batch env k language).jsonSaved
      = (runBatchItems env (pyOr language defaultLang)
          (env.inputListing.filter hasImageExt) k).jsonSaved
        ++ [(pathJoin outputDir ("batch_summary_" ++ pyOr language defaultLang ++ "_"
              ++ toString (pyInt (env.clock ((runBatchItems env
                  (pyOr language defaultLang)
                  (env.inputListing.filter hasImageExt) k).nextClock + 1)))
              ++ ".json"),
            (process_batch env k language).response)] := by
  obtain ⟨h1, h2, h3, h4⟩ :=
    runBatchItems_spec env (pyOr language defaultLang) (pyOr_pyOr language)
      (env.inputListing.filter hasImageExt) k
  have hemp : (env.inputListing.filter hasImageExt).isEmpty = false := by
    rw [List.isEmpty_eq_false]; exact hne
  refine ⟨?_, h2, h1, countP_add_countP_not _ _, ?_⟩
  · simp only [process_batch, hemp, Bool.false_eq_true, if_false, h3, h4]
  · simp only [process_batch, hemp, Bool.false_eq_true, if_false]

/-- Witness for the C6 theorem on a concrete directory with one good file
(`a.png`), one bad one (`bad.pdf`) and one non-matching entry
(`notes.txt`). -/
theorem process_batch_aggregation_witness :
    (process_batch envT 0 none).response = JValue.jobj
      [("total_files", .jnum (((envT.inputListing.filter hasImageExt).length : ℚ))),
       ("successful", .jnum (((envT.inputListing.filter hasImageExt).countP
           (fun f => fileSucceeds envT (pyOr none defaultLang) f) : ℚ))),
       ("failed", .jnum (((envT.inputListing.filter hasImageExt).countP
           (fun f => ! fileSucceeds envT (pyOr none defaultLang) f) : ℚ))),
       ("language", .jstr (pyOr none defaultLang)),
       ("timestamp", .jnum (envT.clock (runBatchItems envT (pyOr none defaultLang)
           (envT.inputListing.filter hasImageExt) 0).nextClock)),
       ("results", .jarr (runBatchItems envT (pyOr none defaultLang)
           (envT.inputListing.filter hasImageExt) 0).items)] ∧
    (envT.inputListing.filter hasImageExt).countP
        (fun f => fileSucceeds envT (pyOr none defaultLang) f)
      + (envT.inputListing.filter hasImageExt).countP
          (fun f => ! fileSucceeds envT (pyOr none defaultLang) f)
      = (envT.inputListing.filter hasImageExt).length ∧
    (runBatchItems envT (pyOr none defaultLang)
        (envT.inputListing.filter hasImageExt) 0).items.map (fun i => i.lookup "file")
      = (envT.inputListing.filter hasImageExt).map (fun f => some (.jstr f)) :=
  ⟨(process_batch_aggregation envT 0 none (by decide)).1,
   (process_batch_aggregation envT 0 none (by decide)).2.2.2.1,
   (process_batch_aggregation envT 0 none (by decide)).2.1⟩

/-! ## Claim C10 -/

theorem takeWhile_append_of_all {p : Char → Bool} :
    ∀ (xs ys : List Char), (∀ x ∈ xs, p x = true) →
      (xs ++ ys).takeWhile p = xs ++ ys.takeWhile p
  | [], ys, _ => rfl
  | x :: xs, ys, h => by
    have hx : p x = true := h x (List.mem_cons_self x xs)
    simp only [List.cons_append, List.takeWhile_cons, hx, if_true,
      takeWhile_append_of_all xs ys (fun y hy => h y (List.mem_cons_of_mem x hy))]

/-- The file-name component of a path built by appending a slash-free
name after a directory and a slash. -/
theorem fileNameChars_append_slash (l₁ l₂ : List Char) (h : '/' ∉ l₂) :
    fileNameChars (l₁ ++ '/' :: l₂) = l₂ := by
  unfold fileNameChars
  have h1 : (l₁ ++ '/' :: l₂).reverse = l₂.reverse ++ '/' :: l₁.reverse := by
    simp
  have hall : ∀ x ∈ l₂.reverse, (fun c => decide (c ≠ '/')) x = true := by
    intro x hx
    simp only [decide_eq_true_eq]
    intro hxe
    exact h (hxe ▸ List.mem_reverse.mp hx)
  rw [h1, takeWhile_append_of_all l₂.reverse ('/' :: l₁.reverse) hall]
  simp [List.takeWhile_cons]

/-- Appending `_page1.jpg` to a name and taking the `pathlib` stem strips
exactly the `.jpg` part. -/
theorem stemChars_append_page1 (s : List Char) :
    stemChars (s ++ ['_', 'p', 'a', 'g', 'e', '1', '.', 'j', 'p', 'g'])
      = s ++ ['_', 'p', 'a', 'g', 'e', '1'] := by
  simp only [stemChars]
  have hrev : (s ++ ['_', 'p', 'a', 'g', 'e', '1', '.', 'j', 'p', 'g']).reverse
      = 'g' :: 'p' :: 'j' :: '.' ::
        ('1' :: 'e' :: 'g' :: 'a' :: 'p' :: '_' :: s.reverse) := by
    simp
  rw [hrev]
  have hb : List.takeWhile (fun c => decide ¬c = '.')
      ('g' :: 'p' :: 'j' :: '.' ::
        ('1' :: 'e' :: 'g' :: 'a' :: 'p' :: '_' :: s.reverse))
      = ['g', 'p', 'j'] := rfl
  rw [hb]
  rw [if_neg (by simp)]
  rw [if_neg (by simp)]
  rw [show (['g', 'p', 'j'] : List Char).length + 1 = 4 from rfl]
  rw [show ('g' :: 'p' :: 'j' :: '.' ::
      ('1' :: 'e' :: 'g' :: 'a' :: 'p' :: '_' :: s.reverse)).drop 4
      = '1' :: 'e' :: 'g' :: 'a' :: 'p' :: '_' :: s.reverse from rfl]
  rw [if_neg (by simp)]
  simp

theorem not_slash_mem_fileNameChars (l : List Char) :
    '/' ∉ fileNameChars l := by
  intro h
  have h1 := List.mem_reverse.mp h
  have h2 := List.mem_takeWhile_imp h1
  simp at h2

theorem mem_of_mem_stemChars {c : Char} {name : List Char}
    (h : c ∈ stemChars name) : c ∈ name := by
  simp only [stemChars] at h
  split at h
  · exact h
  · split at h
    · exact h
    · split at h
      · exact h
      · exact List.mem_reverse.mp (List.mem_of_mem_drop (List.mem_reverse.mp h))

theorem not_slash_mem_stem (p : String) : '/' ∉ (stem p).data := by
  intro h
  exact not_slash_mem_fileNameChars p.data
    (mem_of_mem_stemChars (h : '/' ∈ stemChars (fileNameChars p.data)))

/-- `Path(dir / (s + "_page1.jpg")).stem = s + "_page1"` whenever `s`
contains no slash. -/
theorem stem_pathJoin_page1 (d s : String) (h : '/' ∉ s.data) :
    stem (pathJoin d (s ++ "_page1.jpg")) = s ++ "_page1" := by
  have hjpg : ("_page1.jpg" : String).data
      = ['_', 'p', 'a', 'g', 'e', '1', '.', 'j', 'p', 'g'] := rfl
  have hdata : (pathJoin d (s ++ "_page1.jpg")).data
      = d.data ++ '/' :: (s.data ++ ['_', 'p', 'a', 'g', 'e', '1', '.', 'j', 'p', 'g']) := by
    simp [pathJoin, String.data_append, hjpg]
  have hnos : '/' ∉ s.data ++ ['_', 'p', 'a', 'g', 'e', '1', '.', 'j', 'p', 'g'] := by
    intro hx
    rcases List.mem_append.mp hx with hx | hx
    · exact h hx
    · simp at hx
  have hfn : fileNameChars (pathJoin d (s ++ "_page1.jpg")).data
      = s.data ++ ['_', 'p', 'a', 'g', 'e', '1', '.', 'j', 'p', 'g'] := by
    rw [hdata]
    exact fileNameChars_append_slash _ _ hnos
  apply String.ext
  show stemChars (fileNameChars (pathJoin d (s ++ "_page1.jpg")).data)
      = (s ++ "_page1").data
  rw [hfn, stemChars_append_page1]
  simp [String.data_append]

/-- C10: for every PDF input processed with persistence whose conversion
and OCR both succeed, the per-item JSON artifact is named after the
converted image's stem — `{originalStem}_page1_{lang}_result.json` — and
the recorded `image_path` is the converted JPEG inside the input staging
directory rather than the original PDF path. -/
theorem pdf_artifact_naming (env : Env) (k : Nat) (p : String)
    (language : Option String) (dr : Bool) (n : Nat) (raw : JValue)
    (hpdf : strEndsWith (strToLower (resolvePath p)) ".pdf" = true)
    (hn : env.pdfPages (resolvePath p) = .ok n) (hn0 : n ≠ 0)
    (he : env.engine (get_ocr_instance (some (pyOr language defaultLang)))
      (pathJoin inputDir (stem (resolvePath p) ++ "_page1.jpg")) dr = .ok raw) :
    ((process_image env k p language dr true).jsonSaved.map (fun e => e.1))
      = [pathJoin outputDir (stem (resolvePath p) ++ "_page1_"
          ++ pyOr language defaultLang ++ "_result.json")] ∧
    (process_image env k p language dr true).response.lookup "image_path"
      = some (.jstr (pathJoin inputDir
          (stem (resolvePath p) ++ "_page1.jpg"))) := by
  have hp : pdfStep env (resolvePath p)
      = .ok (pathJoin inputDir (stem (resolvePath p) ++ "_page1.jpg"),
             rasterize (resolvePath p) n,
             [(pathJoin inputDir (stem (resolvePath p) ++ "_page1.jpg"),
               ⟨resolvePath p, 1, 300⟩)]) := by
    simp [pdfStep, hpdf, hn, hn0]
  have hstem : stem (pathJoin inputDir (stem (resolvePath p) ++ "_page1.jpg"))
      = stem (resolvePath p) ++ "_page1" :=
    stem_pathJoin_page1 _ _ (not_slash_mem_stem _)
  have hname : stem (resolvePath p) ++ "_page1" ++ "_"
      ++ pyOr language defaultLang ++ "_result.json"
      = stem (resolvePath p) ++ "_page1_"
      ++ pyOr language defaultLang ++ "_result.json" := by
    rw [String.append_assoc (stem (resolvePath p)) "_page1" "_",
      show ("_page1" : String) ++ "_" = "_page1_" from rfl]
  constructor
  · simp only [process_image, hp, he, hstem]
    rw [if_pos trivial]
    simp only [List.map_cons, List.map_nil, hname]
  · simp only [process_image, hp, he]
    rw [if_pos trivial]
    rfl

/-- Witness for the C10 theorem at the concrete three-page PDF
`/tmp/doc.pdf` with the default language. -/
theorem pdf_artifact_naming_witness :
    ((process_image envT 0 "/tmp/doc.pdf" none true true).jsonSaved.map
        (fun e => e.1))
      = [pathJoin outputDir (stem (resolvePath "/tmp/doc.pdf") ++ "_page1_"
          ++ pyOr none defaultLang ++ "_result.json")] ∧
    (process_image envT 0 "/tmp/doc.pdf" none true true).response.lookup
        "image_path"
      = some (.jstr (pathJoin inputDir
          (stem (resolvePath "/tmp/doc.pdf") ++ "_page1.jpg"))) :=
  pdf_artifact_naming envT 0 "/tmp/doc.pdf" none true 3 (.jstr "TEXT")
    rfl rfl (by decide) rfl
